import Mathlib

/-!
Verification development for the spreadsheet range / pivot-table compiler of a
Google-Workspace tool server.  The definitions below are a shallow embedding of
the TypeScript source (`src/tools/sheets.ts` helpers plus the zod schemas in
`src/schemas/sheets.ts`): JavaScript numbers appearing here are integers, JS
`undefined`-able fields become `Option`, thrown exceptions become `Except`,
and the two external service calls of the pivot-table handler are modelled by
an explicit environment plus a trace of the external calls that were issued.
-/

namespace GWS

/-- The error kinds the compiler subsystem can raise (`throw new Error(...)`
in the source): malformed range strings, missing sheets, and a failed
destination-sheet creation reply. -/
inductive CompileError
  | invalidFormat (range : String)
  | notFound (sheetName : String)
  | createSheetFailed
  deriving Repr, DecidableEq

/-- ASCII letter test, the character class `[A-Za-z]` of the source regexes. -/
def isAsciiLetter (c : Char) : Bool :=
  (65 ≤ c.toNat && c.toNat ≤ 90) || (97 ≤ c.toNat && c.toNat ≤ 122)

/-- ASCII digit test, the character class `\d` of the source regexes. -/
def isDigitChar (c : Char) : Bool :=
  48 ≤ c.toNat && c.toNat ≤ 57

/-- JavaScript `String.prototype.toUpperCase` restricted to the ASCII range,
which is all the compiler ever feeds it (column letters). -/
def jsToUpper (s : String) : String :=
  ⟨s.data.map Char.toUpper⟩

/-- Embedding of `columnLetterToIndex` (sheets.ts lines 65-72):
`index = index * 26 + (charCodeAt(i) - 64)` over the uppercased string,
then `index - 1`.  The source performs no validation and never throws. -/
def columnLetterToIndex (letter : String) : Int :=
  ((jsToUpper letter).data.foldl
    (fun index c => index * 26 + ((c.toNat : Int) - 64)) 0) - 1

/-- The spec's own formula for `toIndex`: uppercase-normalize, fold
`index*26 + (charCode - 'A' + 1)` (with `'A' = 65`), subtract 1.  Stated
separately from `columnLetterToIndex` so the two can be compared. -/
def specToIndex (s : String) : Int :=
  ((jsToUpper s).data.foldl
    (fun index c => index * 26 + ((c.toNat : Int) - 65 + 1)) 0) - 1

/-- A `ColumnRef` input: zod's `ColumnRefSchema` is a union of a non-negative
integer and a column-letter string. -/
inductive ColumnRef
  | num (n : Int)
  | letters (s : String)
  deriving Repr, DecidableEq

/-- Embedding of `resolveColumnIndex` (sheets.ts lines 75-80): numbers pass
through unchanged, strings go through `columnLetterToIndex`. -/
def resolveColumnIndex : ColumnRef → Int
  | .num n => n
  | .letters s => columnLetterToIndex s

/-- The string side of `ColumnRefSchema`'s regex `/^[A-Z]+$/i`: non-empty and
all ASCII letters. -/
def columnRefLettersOk (s : String) : Bool :=
  !s.data.isEmpty && s.data.all isAsciiLetter

theorem char_toNat_ofNat_valid (n : Nat) (h : n.isValidChar) :
    (Char.ofNat n).toNat = n := by
  rw [Char.ofNat, dif_pos h]
  rfl

theorem char_toUpper_idem (c : Char) : c.toUpper.toUpper = c.toUpper := by
  unfold Char.toUpper
  by_cases h : c.toNat ≥ 97 ∧ c.toNat ≤ 122
  · rw [if_pos h]
    have hv : (c.toNat - 32).isValidChar := Or.inl (by omega)
    have ht : (Char.ofNat (c.toNat - 32)).toNat = c.toNat - 32 :=
      char_toNat_ofNat_valid _ hv
    rw [if_neg (by rw [ht]; omega)]
  · rw [if_neg h, if_neg h]

theorem char_toUpper_code_of_letter (c : Char) (h : isAsciiLetter c = true) :
    65 ≤ c.toUpper.toNat ∧ c.toUpper.toNat ≤ 90 := by
  unfold Char.toUpper
  have hc : (65 ≤ c.toNat ∧ c.toNat ≤ 90) ∨ (97 ≤ c.toNat ∧ c.toNat ≤ 122) := by
    simp only [isAsciiLetter, Bool.or_eq_true, Bool.and_eq_true,
      decide_eq_true_eq] at h
    exact h
  by_cases hl : c.toNat ≥ 97 ∧ c.toNat ≤ 122
  · rw [if_pos hl]
    have hv : (c.toNat - 32).isValidChar := Or.inl (by omega)
    rw [char_toNat_ofNat_valid _ hv]
    omega
  · rw [if_neg hl]
    omega

theorem jsToUpper_idem (s : String) : jsToUpper (jsToUpper s) = jsToUpper s := by
  unfold jsToUpper
  simp only [List.map_map]
  exact congrArg String.mk
    (List.map_congr_left fun c _ => char_toUpper_idem c)

/-- The structured range produced by `parseA1Range`: sheet name (possibly
empty), inclusive zero-based `startCol`/`startRow`, exclusive `endCol`/`endRow`. -/
structure RangeSpec where
  sheetName : String
  startCol : Int
  startRow : Int
  endCol : Int
  endRow : Int
  deriving Repr, DecidableEq

/-- JavaScript `String.prototype.split` with a one-character separator,
written on the character list (structurally recursive so that concrete
ranges evaluate).  `"".split(sep)` is `[""]`, matching JS. -/
def splitOnChar (l : List Char) (sep : Char) : List (List Char) :=
  match l with
  | [] => [[]]
  | c :: cs =>
      if c = sep then [] :: splitOnChar cs sep
      else match splitOnChar cs sep with
        | [] => [[c]]
        | h :: t => (c :: h) :: t

/-- `parts[0].replace(/^'|'$/g, "")`: strip one leading and one trailing
single-quote character. -/
def stripQuotes (s : String) : String :=
  let t := match s.data with
    | '\'' :: rest => rest
    | l => l
  ⟨match t.getLast? with
    | some '\'' => t.dropLast
    | _ => t⟩

/-- The sheet-name split of `parseA1Range` (sheets.ts lines 91-98): if the
string contains `!`, the part before the first `!` (quotes stripped) is the
sheet name and the part between the first and second `!` is the cell range;
otherwise the sheet name is empty and the whole string is the cell range. -/
def splitSheet (range : String) : String × String :=
  if range.data.contains '!' then
    let parts := (splitOnChar range.data '!').map String.mk
    (stripQuotes (parts.headD ""), (parts.drop 1).headD "")
  else
    ("", range)

/-- The reference split of `parseA1Range` (lines 101-103): split on `:`;
`rangeParts[1] || startRef` makes a missing or empty end reference default to
the start reference. -/
def refsOf (rangeOnly : String) : String × String :=
  let rangeParts := (splitOnChar rangeOnly.data ':').map String.mk
  let startRef := rangeParts.headD ""
  let e := (rangeParts.drop 1).headD ""
  (startRef, if e = "" then startRef else e)

/-- The regex match `^([A-Za-z]+)(\d*)$` of lines 106-107: a full match
splits the reference into a non-empty letters group followed by an
all-digits (possibly empty) group; `none` when the reference does not match. -/
def matchRef (s : String) : Option (List Char × List Char) :=
  let letters := s.data.takeWhile isAsciiLetter
  let rest := s.data.dropWhile isAsciiLetter
  if !letters.isEmpty && rest.all isDigitChar then some (letters, rest) else none

/-- `parseInt(digits, 10)` on an all-digits string. -/
def digitsToNat (digits : List Char) : Nat :=
  digits.foldl (fun n c => n * 10 + (c.toNat - 48)) 0

/-- Embedding of `parseA1Range` (sheets.ts lines 83-119).  Row numbers are
1-based inclusive in the source notation; a missing start row becomes 0, a
missing end row becomes the fixed sentinel 1000; the end column is made
exclusive by adding 1. -/
def parseA1Range (range : String) : Except CompileError RangeSpec :=
  match matchRef (refsOf (splitSheet range).2).1,
        matchRef (refsOf (splitSheet range).2).2 with
  | some (sletters, sdigits), some (eletters, edigits) =>
      .ok { sheetName := (splitSheet range).1
            startCol := columnLetterToIndex ⟨sletters⟩
            startRow := if !sdigits.isEmpty then (digitsToNat sdigits : Int) - 1 else 0
            endCol := columnLetterToIndex ⟨eletters⟩ + 1
            endRow := if !edigits.isEmpty then (digitsToNat edigits : Int) else 1000 }
  | _, _ => .error (.invalidFormat range)

/-- `Schema$SheetProperties` as consumed by the resolver: both fields are
optional in the service's reply. -/
structure SheetProperties where
  title : Option String
  sheetId : Option Nat
  deriving Repr, DecidableEq

/-- `Schema$Sheet`: the `properties` object itself is optional. -/
structure Sheet where
  properties : Option SheetProperties
  deriving Repr, DecidableEq

/-- Embedding of `getSheetIdByName` (sheets.ts lines 122-141) applied to the
sheet list the metadata call returned.  `find` locates the first sheet whose
title strictly equals `sheetName`; the guard `!sheet?.properties?.sheetId`
throws when the sheet is absent, its properties or id are missing, or —
because 0 is falsy in JavaScript — when the id is 0. -/
def getSheetIdByName (sheets : List Sheet) (sheetName : String) :
    Except CompileError Nat :=
  match (sheets.find? fun s =>
          (s.properties.bind (fun p => p.title)) == some sheetName).bind
        (fun s => s.properties.bind (fun p => p.sheetId)) with
  | some id => if id = 0 then .error (.notFound sheetName) else .ok id
  | none => .error (.notFound sheetName)

/-- The handler's default-first-sheet fallback (sheets.ts line 968):
`spreadsheet.data.sheets?.[0]?.properties?.sheetId || 0`. -/
def defaultFirstSheetId (sheets : List Sheet) : Nat :=
  ((sheets.head?.bind (fun s => s.properties)).bind (fun p => p.sheetId)).getD 0

/-- A JavaScript string-or-number union value (`z.union([z.string(), z.number()])`). -/
inductive JSValue
  | str (s : String)
  | num (n : Int)
  deriving Repr, DecidableEq

/-- `String(v)` on a string-or-number value. -/
def jsString : JSValue → String
  | .str s => s
  | .num n => toString n

/-- `SortByValueSchema`: `{ value_index: int ≥ 0 }`. -/
structure SortByValue where
  value_index : Nat
  deriving Repr, DecidableEq

/-- The `sort_order` enum `["ASCENDING", "DESCENDING"]`. -/
inductive SortOrder
  | ascending
  | descending
  deriving Repr, DecidableEq

/-- `DateTimeRuleSchema`: the truncation granularity, one of 15 enum strings. -/
structure DateTimeRule where
  type : String
  deriving Repr, DecidableEq

/-- `HistogramRuleSchema`: interval with optional start/end bounds. -/
structure HistogramRule where
  interval : Int
  start : Option Int
  stop : Option Int
  deriving Repr, DecidableEq

/-- One entry of `ManualRuleGroupSchema.items`: string or number. -/
structure ManualRuleGroup where
  group_name : String
  items : List JSValue
  deriving Repr, DecidableEq

/-- `ManualRuleSchema`. -/
structure ManualRule where
  groups : List ManualRuleGroup
  deriving Repr, DecidableEq

/-- `GroupRuleSchema`: the tagged union of the three bucketing strategies
(`date_time` / `histogram` / `manual`). -/
inductive GroupRuleInput
  | date_time (r : DateTimeRule)
  | histogram (r : HistogramRule)
  | manual (r : ManualRule)
  deriving Repr, DecidableEq

/-- `PivotGroupSchema` after zod validation: `show_totals` has default
`true`, the rest are optional. -/
structure PivotGroupInput where
  source_column : ColumnRef
  label : Option String
  show_totals : Bool
  sort_order : Option SortOrder
  sort_by_value : Option SortByValue
  group_rule : Option GroupRuleInput
  group_limit : Option Nat
  deriving Repr, DecidableEq

/-- `FilterConditionSchema`: a condition type plus optional operand values. -/
structure FilterConditionInput where
  type : String
  values : Option (List JSValue)
  deriving Repr, DecidableEq

/-- `PivotFilterSchema`: both `visible_values` and `condition` are optional,
with no cross-field refinement. -/
structure PivotFilterInput where
  source_column : ColumnRef
  visible_values : Option (List String)
  condition : Option FilterConditionInput
  deriving Repr, DecidableEq

/-- `PivotValueSchema` before its refinements: both `source_column` and
`formula` are optional fields. -/
structure PivotValueInput where
  source_column : Option ColumnRef
  formula : Option String
  summarize_function : String
  name : Option String
  calculated_display_type : Option String
  deriving Repr, DecidableEq

/-- The two `.refine` clauses of `PivotValueSchema` (schemas/sheets.ts lines
240-246): at least one of `source_column`/`formula`, and not both. -/
def pivotValueRefinementOk (v : PivotValueInput) : Bool :=
  (v.source_column.isSome || v.formula.isSome) &&
    !(v.source_column.isSome && v.formula.isSome)

/-! The destination structures (`sheets_v4.Schema$...`), restricted to the
fields the compiler actually populates.  Every field an API object may omit
is an `Option`. -/

namespace Schema

/-- `Schema$PivotGroupRule.dateTimeRule`. -/
structure DateTimeRuleOut where
  type : Option String
  deriving Repr, DecidableEq

/-- `Schema$PivotGroupRule.histogramRule`. -/
structure HistogramRuleOut where
  interval : Option Int
  start : Option Int
  stop : Option Int
  deriving Repr, DecidableEq

/-- `Schema$ExtendedValue` as used for manual-rule group names and items. -/
structure ExtendedValue where
  stringValue : Option String
  numberValue : Option Int
  deriving Repr, DecidableEq

/-- One group of `Schema$ManualRule`. -/
structure ManualRuleGroupOut where
  groupName : Option ExtendedValue
  items : Option (List ExtendedValue)
  deriving Repr, DecidableEq

/-- `Schema$ManualRule`. -/
structure ManualRuleOut where
  groups : Option (List ManualRuleGroupOut)
  deriving Repr, DecidableEq

/-- `Schema$PivotGroupRule`: at most one of the three rules populated. -/
structure PivotGroupRule where
  dateTimeRule : Option DateTimeRuleOut
  histogramRule : Option HistogramRuleOut
  manualRule : Option ManualRuleOut
  deriving Repr, DecidableEq

/-- `Schema$PivotGroupSortValueBucket`: `{}` or `{valuesIndex: i}`. -/
structure ValueBucket where
  valuesIndex : Option Nat
  deriving Repr, DecidableEq

/-- `Schema$PivotGroupLimit`. -/
structure GroupLimit where
  countLimit : Option Nat
  deriving Repr, DecidableEq

/-- `Schema$PivotGroup`, restricted to the fields `buildPivotGroup` sets. -/
structure PivotGroup where
  sourceColumnOffset : Option Int
  showTotals : Option Bool
  label : Option String
  sortOrder : Option SortOrder
  valueBucket : Option ValueBucket
  groupRule : Option PivotGroupRule
  groupLimit : Option GroupLimit
  deriving Repr, DecidableEq

/-- `Schema$PivotValue`, restricted to the fields `buildPivotValue` sets. -/
structure PivotValue where
  summarizeFunction : Option String
  sourceColumnOffset : Option Int
  formula : Option String
  name : Option String
  calculatedDisplayType : Option String
  deriving Repr, DecidableEq

/-- A `Schema$ConditionValue` (`{userEnteredValue: string}`). -/
structure ConditionValue where
  userEnteredValue : Option String
  deriving Repr, DecidableEq

/-- `Schema$BooleanCondition` as built for pivot filters. -/
structure BooleanCondition where
  type : Option String
  values : Option (List ConditionValue)
  deriving Repr, DecidableEq

/-- `Schema$PivotFilterCriteria`. -/
structure PivotFilterCriteria where
  visibleValues : Option (List String)
  condition : Option BooleanCondition
  deriving Repr, DecidableEq

/-- `Schema$PivotFilterSpec`. -/
structure PivotFilterSpec where
  columnOffsetIndex : Option Int
  filterCriteria : Option PivotFilterCriteria
  deriving Repr, DecidableEq

/-- `Schema$GridRange` as assembled for the pivot source. -/
structure GridRange where
  sheetId : Nat
  startRowIndex : Int
  startColumnIndex : Int
  endRowIndex : Int
  endColumnIndex : Int
  deriving Repr, DecidableEq

/-- `Schema$PivotTable` as assembled by the handler. -/
structure PivotTable where
  source : GridRange
  rows : Option (List PivotGroup)
  columns : Option (List PivotGroup)
  values : List PivotValue
  valueLayout : String
  filterSpecs : Option (List PivotFilterSpec)
  deriving Repr, DecidableEq

end Schema

/-- Embedding of `buildGroupRule` (sheets.ts lines 144-172).  The source
checks the three tags with `in`; on the sum type this is an exhaustive match
(the trailing `throw new Error("Invalid group rule")` is unreachable).
Manual items are tagged by runtime type: strings become `stringValue`,
numbers `numberValue`. -/
def buildGroupRule : GroupRuleInput → Schema.PivotGroupRule
  | .date_time r => { dateTimeRule := some { type := some r.type },
                      histogramRule := none, manualRule := none }
  | .histogram r => { dateTimeRule := none,
                      histogramRule := some { interval := some r.interval,
                                              start := r.start, stop := r.stop },
                      manualRule := none }
  | .manual r => { dateTimeRule := none, histogramRule := none,
                   manualRule := some { groups := some (r.groups.map fun g =>
                     { groupName := some { stringValue := some g.group_name,
                                           numberValue := none }
                       items := some (g.items.map fun
                         | .str s => { stringValue := some s, numberValue := none }
                         | .num n => { stringValue := none, numberValue := some n }) }) } }

/-- Embedding of `buildPivotGroup` (sheets.ts lines 175-208), written
field-wise (the source assigns each field at most once, so the sequential
object mutation is the same function).  JavaScript truthiness: `label` is
dropped when empty, `group_limit` when 0; `sort_order` and the objects are
presence checks.  Sort precedence: `sort_by_value` wins the `valueBucket`;
`sort_order` alone yields the empty bucket `{}`. -/
def buildPivotGroup (group : PivotGroupInput) : Schema.PivotGroup :=
  { sourceColumnOffset := some (resolveColumnIndex group.source_column)
    showTotals := some group.show_totals
    label := match group.label with
      | some l => if l ≠ "" then some l else none
      | none => none
    sortOrder := group.sort_order
    valueBucket := match group.sort_by_value with
      | some sbv => some { valuesIndex := some sbv.value_index }
      | none => match group.sort_order with
        | some _ => some { valuesIndex := none }
        | none => none
    groupRule := group.group_rule.map buildGroupRule
    groupLimit := match group.group_limit with
      | some n => if n ≠ 0 then some { countLimit := some n } else none
      | none => none }

/-- Embedding of `buildPivotValue` (sheets.ts lines 211-231).  The
`source_column` branch is an explicit `!== undefined` check (so index 0 is
kept); `formula`, `name` and `calculated_display_type` go through JS
truthiness (the empty string is dropped).  When `source_column` is present
the `formula` branch is never reached. -/
def buildPivotValue (val : PivotValueInput) : Schema.PivotValue :=
  { summarizeFunction := some val.summarize_function
    sourceColumnOffset := val.source_column.map resolveColumnIndex
    formula := match val.source_column with
      | some _ => none
      | none => match val.formula with
        | some f => if f ≠ "" then some f else none
        | none => none
    name := match val.name with
      | some n => if n ≠ "" then some n else none
      | none => none
    calculatedDisplayType := match val.calculated_display_type with
      | some t => if t ≠ "" then some t else none
      | none => none }

/-- The per-filter body of `buildPivotFilters` (sheets.ts lines 235-251):
`filterCriteria` starts as `{}`; a present `visible_values` array (even an
empty one — arrays are truthy) wins over `condition`; condition operand
values are coerced to strings with `String(v)`. -/
def buildPivotFilter (filter : PivotFilterInput) : Schema.PivotFilterSpec :=
  { columnOffsetIndex := some (resolveColumnIndex filter.source_column)
    filterCriteria := some (
      match filter.visible_values with
      | some vs => { visibleValues := some vs, condition := none }
      | none => match filter.condition with
        | some c =>
            { visibleValues := none
              condition := some { type := some c.type
                                  values := c.values.map (fun l =>
                                    l.map fun v => { userEnteredValue := some (jsString v) }) } }
        | none => { visibleValues := none, condition := none }) }

/-- Embedding of `buildPivotFilters` (sheets.ts lines 234-252): an
order-preserving map of `buildPivotFilter`. -/
def buildPivotFilters (filters : List PivotFilterInput) : List Schema.PivotFilterSpec :=
  filters.map buildPivotFilter

/-- `CreatePivotTableSchema` after zod validation: `destination_sheet_name`
and `value_layout` have defaults, `rows`/`columns`/`filters` stay absent when
not supplied. -/
structure CreatePivotTableInput where
  source_range : String
  destination_sheet_id : Option Nat
  destination_sheet_name : String
  rows : Option (List PivotGroupInput)
  columns : Option (List PivotGroupInput)
  values : List PivotValueInput
  filters : Option (List PivotFilterInput)
  value_layout : String

/-- The external spreadsheet-service calls the handler can issue, in order.
`getMetadata` is the read-only `spreadsheets.get`; the two `batchUpdate`
calls (adding the destination sheet, writing the pivot table) mutate the
spreadsheet. -/
inductive ExternalCall
  | getMetadata
  | addSheet (title : String)
  | updateCells (destSheetId : Nat)
  deriving Repr, DecidableEq

/-- Whether a call mutates the spreadsheet. -/
def ExternalCall.isMutation : ExternalCall → Bool
  | .getMetadata => false
  | .addSheet _ => true
  | .updateCells _ => true

/-- The injected behaviour of the external service: the sheet list the
metadata call reports, and the `addSheet` reply properties (`none` models a
reply with the properties missing). -/
structure Env where
  sheets : List Sheet
  addSheetReply : String → Option SheetProperties

/-- Step 2 of the handler (sheets.ts lines 960-969): a named sheet goes
through `getSheetIdByName`, an empty sheet name through the
default-first-sheet fallback (which cannot fail). -/
def resolveSourceSheetId (env : Env) (sheetName : String) : Except CompileError Nat :=
  if sheetName ≠ "" then getSheetIdByName env.sheets sheetName
  else .ok (defaultFirstSheetId env.sheets)

/-- Step 3 of the handler (lines 971-997): a supplied
`destination_sheet_id` is used as-is with no external call; otherwise an
`addSheet` mutation is issued, the reply's title (when truthy) replaces the
requested name, and a reply without a sheet id raises
"Failed to create destination sheet". -/
def resolveDestination (env : Env) (params : CreatePivotTableInput) :
    Except CompileError (Nat × String) × List ExternalCall :=
  match params.destination_sheet_id with
  | some d => (.ok (d, params.destination_sheet_name), [])
  | none =>
      let calls := [ExternalCall.addSheet params.destination_sheet_name]
      match env.addSheetReply params.destination_sheet_name with
      | some props =>
          let newName := match props.title with
            | some t => if t ≠ "" then t else params.destination_sheet_name
            | none => params.destination_sheet_name
          match props.sheetId with
          | some id => (.ok (id, newName), calls)
          | none => (.error .createSheetFailed, calls)
      | none => (.error .createSheetFailed, calls)

/-- The pivot-table object assembled at sheets.ts lines 999-1019: compiled
rows/columns collapse to absent when empty, values are compiled as given,
filters only when supplied. -/
def assemblePivotTable (params : CreatePivotTableInput) (parsedRange : RangeSpec)
    (sourceSheetId : Nat) : Schema.PivotTable :=
  let pivotRows := (params.rows.getD []).map buildPivotGroup
  let pivotColumns := (params.columns.getD []).map buildPivotGroup
  { source := { sheetId := sourceSheetId
                startRowIndex := parsedRange.startRow
                startColumnIndex := parsedRange.startCol
                endRowIndex := parsedRange.endRow
                endColumnIndex := parsedRange.endCol }
    rows := if pivotRows.length > 0 then some pivotRows else none
    columns := if pivotColumns.length > 0 then some pivotColumns else none
    values := params.values.map buildPivotValue
    valueLayout := params.value_layout
    filterSpecs := params.filters.map buildPivotFilters }

/-- The successful output of the handler: the compiled descriptor plus the
destination placement it was written to. -/
structure PivotTableResult where
  pivotTable : Schema.PivotTable
  destinationSheetId : Nat
  destinationSheetName : String

/-- Embedding of the `sheets_create_pivot_table` handler (sheets.ts lines
952-1039), with the external calls it issues recorded in order.  Step 1
parses the source range (pure); step 2 resolves the source sheet id (one
metadata read); step 3 resolves or creates the destination sheet; steps 4-7
compile the groups/values/filters and issue the single `updateCells`
mutation. -/
def createPivotTable (env : Env) (params : CreatePivotTableInput) :
    Except CompileError PivotTableResult × List ExternalCall :=
  match parseA1Range params.source_range with
  | .error e => (.error e, [])
  | .ok parsedRange =>
      match resolveSourceSheetId env parsedRange.sheetName with
      | .error e => (.error e, [.getMetadata])
      | .ok sourceSheetId =>
          match resolveDestination env params with
          | (.error e, t3) => (.error e, .getMetadata :: t3)
          | (.ok (destId, destName), t3) =>
              (.ok { pivotTable := assemblePivotTable params parsedRange sourceSheetId
                     destinationSheetId := destId
                     destinationSheetName := destName },
               .getMetadata :: (t3 ++ [.updateCells destId]))

/-- The end-to-end example input: `{source_range:"Sales!A1:E100",
rows:[{source_column:"A"}], values:[{source_column:"E",
summarize_function:"SUM"}]}` with the schema defaults filled in. -/
def c1Input : CreatePivotTableInput :=
  { source_range := "Sales!A1:E100"
    destination_sheet_id := some 5
    destination_sheet_name := "Pivot Table"
    rows := some [{ source_column := .letters "A", label := none,
                    show_totals := true, sort_order := none,
                    sort_by_value := none, group_rule := none, group_limit := none }]
    columns := none
    values := [{ source_column := some (.letters "E"), formula := none,
                 summarize_function := "SUM", name := none,
                 calculated_display_type := none }]
    filters := none
    value_layout := "HORIZONTAL" }

/-- An environment whose metadata lookup reports one sheet, "Sales" with
sheet id 3. -/
def c1Env : Env :=
  { sheets := [{ properties := some { title := some "Sales", sheetId := some 3 } }]
    addSheetReply := fun _ => none }

end GWS

namespace GWS

/-- C1: for the pivot spec over `"Sales!A1:E100"` with one row group on
column "A" and one SUM value on column "E", against a lookup that returns
sheet id 3 for "Sales", the compiled pivot table's source region is
`{sheetId:3, startRowIndex:0, startColumnIndex:0, endRowIndex:100,
endColumnIndex:5}` and the first row group's `sourceColumnOffset` is 0. -/
theorem c1_end_to_end_source_region :
    (createPivotTable c1Env c1Input).1.map
      (fun r => (r.pivotTable.source,
                 (r.pivotTable.rows.getD []).map (fun g => g.sourceColumnOffset))) =
    .ok ({ sheetId := 3, startRowIndex := 0, startColumnIndex := 0,
           endRowIndex := 100, endColumnIndex := 5 }, [some 0]) := by
  rfl

/-- C6: parsing the pure column range `"A:E"` (no row digits) yields the
empty sheet name, start column 0, start row 0, exclusive end column 5 and
the fixed sentinel end row 1000. -/
theorem c6_pure_column_range :
    parseA1Range "A:E" =
      .ok { sheetName := "", startCol := 0, startRow := 0, endCol := 5, endRow := 1000 } := by
  rfl

theorem fold_letters_ge_one (l : List Char)
    (hl : ∀ c ∈ l, 65 ≤ c.toNat ∧ c.toNat ≤ 90) (acc : Int) (hacc : 1 ≤ acc) :
    1 ≤ l.foldl (fun index c => index * 26 + ((c.toNat : Int) - 64)) acc := by
  induction l generalizing acc with
  | nil => simpa using hacc
  | cons c cs ih =>
      have hc := hl c (by simp)
      have hc1 : (65 : Int) ≤ (c.toNat : Int) := by exact_mod_cast hc.1
      rw [List.foldl_cons]
      apply ih (fun d hd => hl d (List.mem_cons_of_mem _ hd))
      omega

/-- C4: on letters-only input (A-Z, case-insensitive), `columnLetterToIndex`
computes the spec's uppercase-normalized left fold `index*26 + (charCode -
'A' + 1)` minus 1; concretely A↦0, Z↦25, AA↦26, AZ↦51, and lowercase input
gives the same result as its uppercase form. -/
theorem c4_toIndex_base26 :
    (∀ s : String, (∀ c ∈ s.data, isAsciiLetter c = true) →
        columnLetterToIndex s = specToIndex s) ∧
    columnLetterToIndex "A" = 0 ∧ columnLetterToIndex "Z" = 25 ∧
    columnLetterToIndex "AA" = 26 ∧ columnLetterToIndex "AZ" = 51 ∧
    (∀ s : String, (∀ c ∈ s.data, isAsciiLetter c = true) →
        columnLetterToIndex s = columnLetterToIndex (jsToUpper s)) := by
  refine ⟨?_, by decide, by decide, by decide, by decide, ?_⟩
  · intro s _
    have hfun : (fun (index : Int) (c : Char) => index * 26 + ((c.toNat : Int) - 65 + 1))
        = fun (index : Int) (c : Char) => index * 26 + ((c.toNat : Int) - 64) := by
      funext i c
      omega
    rw [columnLetterToIndex, specToIndex, hfun]
  · intro s _
    rw [columnLetterToIndex, columnLetterToIndex, jsToUpper_idem]

/-- C4 witness: the fold formula and case-insensitivity at the concrete
input "aZ". -/
theorem c4_witness :
    columnLetterToIndex "aZ" = specToIndex "aZ" ∧
    columnLetterToIndex "aZ" = columnLetterToIndex (jsToUpper "aZ") :=
  ⟨c4_toIndex_base26.1 "aZ" (by decide), c4_toIndex_base26.2.2.2.2.2 "aZ" (by decide)⟩

/-- C5 counterexample: `columnLetterToIndex` does not fail on empty or
non-letter input — it returns -1 for `""` and -16 for `"1"` (the digit
contributes charCode 49 - 64 = -15 to the fold). -/
theorem c5_counterexample :
    columnLetterToIndex "" = -1 ∧ columnLetterToIndex "1" = -16 := by
  exact ⟨by decide, by decide⟩

/-- C5 amended: `columnLetterToIndex` performs no validation and returns a
numeric result for every input; on every string accepted by the upstream
column-letter grammar `/^[A-Z]+$/i` (non-empty, all ASCII letters) that
result is a valid zero-based index (≥ 0).  Rejection of malformed letters
happens upstream (schema regex / `parseA1Range`'s reference match), never in
`columnLetterToIndex` itself. -/
theorem c5_toIndex_total_nonneg_on_letters (s : String)
    (h : columnRefLettersOk s = true) : 0 ≤ columnLetterToIndex s := by
  obtain ⟨l⟩ := s
  rw [columnRefLettersOk, Bool.and_eq_true] at h
  obtain ⟨hne, hall⟩ := h
  have hall' : ∀ c ∈ l, isAsciiLetter c = true := by
    intro c hc
    exact List.all_eq_true.1 hall c hc
  cases l with
  | nil => simp at hne
  | cons c cs =>
      rw [columnLetterToIndex]
      have hdata : (jsToUpper ⟨c :: cs⟩).data = c.toUpper :: cs.map Char.toUpper := rfl
      rw [hdata, List.foldl_cons]
      have hc := char_toUpper_code_of_letter c (hall' c (by simp))
      have hc1 : (65 : Int) ≤ (c.toUpper.toNat : Int) := by exact_mod_cast hc.1
      have hrest : 1 ≤ (cs.map Char.toUpper).foldl
          (fun index d => index * 26 + ((d.toNat : Int) - 64))
          (0 * 26 + ((c.toUpper.toNat : Int) - 64)) := by
        apply fold_letters_ge_one
        · intro d hd
          obtain ⟨e, he, rfl⟩ := List.mem_map.1 hd
          exact char_toUpper_code_of_letter e (hall' e (List.mem_cons_of_mem _ he))
        · omega
      omega

/-- C5 witness: the amended theorem at the concrete letters string "AA". -/
theorem c5_witness : 0 ≤ columnLetterToIndex "AA" :=
  c5_toIndex_total_nonneg_on_letters "AA" (by decide)

/-- C2 counterexample: `buildPivotValue` does not fail with `InvalidSpec` —
with both `source_column` and `formula` present it succeeds, keeping the
column offset and silently dropping the formula; with neither present it
succeeds with neither output field set. -/
theorem c2_counterexample :
    buildPivotValue { source_column := some (.num 0), formula := some "=Revenue/Quantity",
                      summarize_function := "SUM", name := none,
                      calculated_display_type := none }
      = { summarizeFunction := some "SUM", sourceColumnOffset := some 0,
          formula := none, name := none, calculatedDisplayType := none } ∧
    buildPivotValue { source_column := none, formula := none,
                      summarize_function := "SUM", name := none,
                      calculated_display_type := none }
      = { summarizeFunction := some "SUM", sourceColumnOffset := none,
          formula := none, name := none, calculatedDisplayType := none } :=
  ⟨rfl, rfl⟩

/-- C2 amended: the value compiler does not re-validate the exactly-one-of
invariant — with both fields present it emits the resolved column offset and
ignores the formula, and with neither present it emits a value with neither
field and no error; the invariant is enforced only upstream, by
`PivotValueSchema`'s two refinements, which accept an input exactly when one
of `source_column`/`formula` is present. -/
theorem c2_value_compiler_trusts_schema (v : PivotValueInput) :
    (∀ c, v.source_column = some c →
        (buildPivotValue v).sourceColumnOffset = some (resolveColumnIndex c) ∧
        (buildPivotValue v).formula = none) ∧
    (v.source_column = none → v.formula = none →
        (buildPivotValue v).sourceColumnOffset = none ∧
        (buildPivotValue v).formula = none) ∧
    pivotValueRefinementOk v = (v.source_column.isSome != v.formula.isSome) := by
  obtain ⟨sc, f, sf, n, cdt⟩ := v
  refine ⟨?_, ?_, ?_⟩
  · intro c hc
    cases hc
    exact ⟨rfl, rfl⟩
  · intro h1 h2
    cases h1
    cases h2
    exact ⟨rfl, rfl⟩
  · cases sc <;> cases f <;> rfl

/-- C2 witness: the amended behaviour at a concrete both-fields input. -/
theorem c2_witness :
    (buildPivotValue { source_column := some (.num 4), formula := some "=X",
                       summarize_function := "SUM", name := none,
                       calculated_display_type := none }).sourceColumnOffset
      = some (resolveColumnIndex (.num 4)) ∧
    (buildPivotValue { source_column := some (.num 4), formula := some "=X",
                       summarize_function := "SUM", name := none,
                       calculated_display_type := none }).formula = none :=
  (c2_value_compiler_trusts_schema _).1 (.num 4) rfl

/-- C3 counterexample: a sheet titled "Sales" with sheet id 0 exists, yet
resolution fails with `NotFound` (0 is falsy in the guard
`!sheet?.properties?.sheetId`); and on a spreadsheet with no sheets the
empty-name fallback returns 0 instead of failing with `NotFound`. -/
theorem c3_counterexample :
    getSheetIdByName
        [{ properties := some { title := some "Sales", sheetId := some 0 } }] "Sales"
      = .error (.notFound "Sales") ∧
    defaultFirstSheetId [] = 0 :=
  ⟨rfl, rfl⟩

/-- C3 amended: for a non-empty name, resolution returns the first
title-matching sheet's id only when that id is present and non-zero; it
fails with `NotFound` when no sheet has the title, and also when the matched
sheet's id is 0 (or missing).  For an empty name the fallback never fails:
it returns the first sheet's id, and 0 when the spreadsheet has no sheets. -/
theorem c3_sheet_resolution (sheets : List Sheet) (name : String) :
    (∀ s id, sheets.find? (fun t => (t.properties.bind (fun p => p.title)) == some name)
          = some s →
        s.properties.bind (fun p => p.sheetId) = some id → id ≠ 0 →
        getSheetIdByName sheets name = .ok id) ∧
    (∀ s, sheets.find? (fun t => (t.properties.bind (fun p => p.title)) == some name)
          = some s →
        s.properties.bind (fun p => p.sheetId) = some 0 →
        getSheetIdByName sheets name = .error (.notFound name)) ∧
    (∀ s, sheets.find? (fun t => (t.properties.bind (fun p => p.title)) == some name)
          = some s →
        s.properties.bind (fun p => p.sheetId) = none →
        getSheetIdByName sheets name = .error (.notFound name)) ∧
    ((∀ s ∈ sheets, ¬ s.properties.bind (fun p => p.title) = some name) →
        getSheetIdByName sheets name = .error (.notFound name)) ∧
    (sheets = [] → defaultFirstSheetId sheets = 0) ∧
    (∀ s id, sheets.head? = some s →
        s.properties.bind (fun p => p.sheetId) = some id →
        defaultFirstSheetId sheets = id) := by
  refine ⟨?_, ?_, ?_, ?_, ?_, ?_⟩
  · intro s id hfind hid hne
    unfold getSheetIdByName
    rw [hfind, Option.some_bind, hid]
    simp [hne]
  · intro s hfind hid
    unfold getSheetIdByName
    rw [hfind, Option.some_bind, hid]
    rfl
  · intro s hfind hid
    unfold getSheetIdByName
    rw [hfind, Option.some_bind, hid]
  · intro hnone
    have hfind : sheets.find?
        (fun t => (t.properties.bind (fun p => p.title)) == some name) = none := by
      rw [List.find?_eq_none]
      intro x hx
      simpa using hnone x hx
    unfold getSheetIdByName
    rw [hfind]
    rfl
  · intro h
    subst h
    rfl
  · intro s id h1 h2
    unfold defaultFirstSheetId
    rw [h1, Option.some_bind, h2]
    rfl

/-- C3 witness: the amended resolution at a concrete one-sheet spreadsheet. -/
theorem c3_witness :
    getSheetIdByName
        [{ properties := some { title := some "Data", sheetId := some 7 } }] "Data"
      = .ok 7 ∧
    defaultFirstSheetId
        [{ properties := some { title := some "Data", sheetId := some 7 } }] = 7 :=
  ⟨(c3_sheet_resolution _ "Data").1 _ 7 rfl rfl (by decide),
   (c3_sheet_resolution _ "Data").2.2.2.2.2 _ 7 rfl rfl⟩

/-- C7: whenever either reference of the cell-range portion fails the
`^([A-Za-z]+)(\d*)$` pattern, `parseA1Range` fails with `InvalidFormat`
instead of returning a range. -/
theorem c7_unmatched_reference_fails (range : String)
    (h : matchRef (refsOf (splitSheet range).2).1 = none ∨
         matchRef (refsOf (splitSheet range).2).2 = none) :
    parseA1Range range = .error (.invalidFormat range) := by
  unfold parseA1Range
  split
  · rename_i heq1 heq2
    rcases h with h | h
    · rw [h] at heq1
      exact absurd heq1 (by simp)
    · rw [h] at heq2
      exact absurd heq2 (by simp)
  · rfl

/-- C7 witness: at the concrete range `"1A:E"` (start reference beginning
with a digit), parsing fails with `InvalidFormat`. -/
theorem c7_witness : parseA1Range "1A:E" = .error (.invalidFormat "1A:E") :=
  c7_unmatched_reference_fails "1A:E" (Or.inl rfl)

/-- C8: pivot-group sort precedence — a set `sort_by_value` always wins the
value bucket (with `sortOrder` carried through as given); `sort_order` alone
yields the empty value bucket plus that sort order; with neither set no
value bucket is emitted. -/
theorem c8_sort_precedence (g : PivotGroupInput) :
    (∀ sbv, g.sort_by_value = some sbv →
        (buildPivotGroup g).valueBucket = some { valuesIndex := some sbv.value_index } ∧
        (buildPivotGroup g).sortOrder = g.sort_order) ∧
    (g.sort_by_value = none → ∀ so, g.sort_order = some so →
        (buildPivotGroup g).valueBucket = some { valuesIndex := none } ∧
        (buildPivotGroup g).sortOrder = some so) ∧
    (g.sort_by_value = none → g.sort_order = none →
        (buildPivotGroup g).valueBucket = none) := by
  refine ⟨?_, ?_, ?_⟩
  · intro sbv hs
    constructor <;> simp [buildPivotGroup, hs]
  · intro hn so hso
    constructor <;> simp [buildPivotGroup, hn, hso]
  · intro hn hso
    simp [buildPivotGroup, hn, hso]

/-- C8 witness: the descending-alphabetical case at a concrete group. -/
theorem c8_witness :
    (buildPivotGroup { source_column := .num 1, label := none, show_totals := true,
                       sort_order := some .descending, sort_by_value := none,
                       group_rule := none, group_limit := none }).valueBucket
      = some { valuesIndex := none } ∧
    (buildPivotGroup { source_column := .num 1, label := none, show_totals := true,
                       sort_order := some .descending, sort_by_value := none,
                       group_rule := none, group_limit := none }).sortOrder
      = some .descending :=
  (c8_sort_precedence _).2.1 rfl .descending rfl

/-- C9: if range parsing (step 1) fails, or the parsed sheet name is
non-empty and source-sheet resolution (step 2) fails, the pivot-table
handler aborts with an error and its trace of external calls contains no
mutating call — no destination sheet is created and no spreadsheet update is
issued. -/
theorem c9_no_mutation_before_validation (env : Env) (p : CreatePivotTableInput)
    (h : (parseA1Range p.source_range).isOk = false ∨
         ∃ spec, parseA1Range p.source_range = .ok spec ∧ spec.sheetName ≠ "" ∧
           (getSheetIdByName env.sheets spec.sheetName).isOk = false) :
    (createPivotTable env p).1.isOk = false ∧
    ∀ c ∈ (createPivotTable env p).2, c.isMutation = false := by
  rcases h with h | ⟨spec, hok, hname, hfail⟩
  · cases hp : parseA1Range p.source_range with
    | error e =>
        have hgoal : createPivotTable env p = (.error e, []) := by
          simp only [createPivotTable, hp]
        rw [hgoal]
        exact ⟨rfl, by simp⟩
    | ok r =>
        rw [hp] at h
        simp [Except.isOk, Except.toBool] at h
  · cases hg : getSheetIdByName env.sheets spec.sheetName with
    | error e =>
        have hgoal : createPivotTable env p = (.error e, [.getMetadata]) := by
          simp only [createPivotTable, resolveSourceSheetId, hok, if_pos hname, hg]
        rw [hgoal]
        refine ⟨rfl, ?_⟩
        intro c hc
        simp at hc
        subst hc
        rfl
    | ok id =>
        rw [hg] at hfail
        simp [Except.isOk, Except.toBool] at hfail

/-- C9 witness: at the unparsable source range `"1A:E"` the handler fails
and its external-call trace is free of mutations. -/
theorem c9_witness :
    (createPivotTable c1Env
        { source_range := "1A:E", destination_sheet_id := none,
          destination_sheet_name := "Pivot Table", rows := none, columns := none,
          values := [], filters := none, value_layout := "HORIZONTAL" }).1.isOk = false ∧
    ∀ c ∈ (createPivotTable c1Env
        { source_range := "1A:E", destination_sheet_id := none,
          destination_sheet_name := "Pivot Table", rows := none, columns := none,
          values := [], filters := none, value_layout := "HORIZONTAL" }).2,
      c.isMutation = false :=
  c9_no_mutation_before_validation c1Env _ (Or.inl (by decide))

/-- C10: every compiled filter spec carries a `filterCriteria` object; a
filter supplying both `visible_values` and `condition` compiles to the
allowlist only (the condition is silently ignored); a filter supplying
neither compiles to an empty criteria object with no error. -/
theorem c10_filter_criteria_defaulting (f : PivotFilterInput) :
    (∀ fs : List PivotFilterInput, ∀ spec ∈ buildPivotFilters fs,
        spec.filterCriteria.isSome = true) ∧
    (∀ vs c, f.visible_values = some vs → f.condition = some c →
        (buildPivotFilter f).filterCriteria
          = some { visibleValues := some vs, condition := none }) ∧
    (f.visible_values = none → f.condition = none →
        (buildPivotFilter f).filterCriteria
          = some { visibleValues := none, condition := none }) := by
  refine ⟨?_, ?_, ?_⟩
  · intro fs spec hs
    rw [buildPivotFilters] at hs
    obtain ⟨x, _, rfl⟩ := List.mem_map.1 hs
    rfl
  · intro vs c h1 _
    simp [buildPivotFilter, h1]
  · intro h1 h2
    simp [buildPivotFilter, h1, h2]

/-- C10 witness: a filter with both an allowlist and a condition keeps only
the allowlist. -/
theorem c10_witness :
    (buildPivotFilter { source_column := .num 1, visible_values := some ["Active"],
                        condition := some { type := "NUMBER_GREATER",
                                            values := some [.num 100] } }).filterCriteria
      = some { visibleValues := some ["Active"], condition := none } :=
  (c10_filter_criteria_defaulting _).2.1 _ _ rfl rfl

end GWS
